import Mathlib

/-!
Shallow embedding of `src/main.py` (the Vionix chat backend) and proofs about
its claims.  Strings are modelled as `List Char`; the Python string operations
used by the handlers (`strip`, `lower`, `in`, `startswith`, `split`, slicing,
`join`) are embedded as executable functions below, and each handler is a pure
function of its request, the database handle and the store's behaviour.
-/

namespace Vionix

/-- Strings of the embedded program, as lists of characters. -/
abbrev Str := List Char

/-- Whitespace test used by Python `str.strip()` on the Latin-1 range:
space, tab, newline, vertical tab, form feed, carriage return, the four
separator controls, next line, and no-break space. -/
def pyIsSpace (c : Char) : Bool :=
  c.toNat == 32 || c.toNat == 9 || c.toNat == 10 ||
    c.toNat == 13 || c.toNat == 11 || c.toNat == 12 ||
    c.toNat == 28 || c.toNat == 29 || c.toNat == 30 || c.toNat == 31 ||
    c.toNat == 133 || c.toNat == 160

/-- Characters stripped by `i.strip(" -•")` in the todo branch (line 73). -/
def todoStripSet (c : Char) : Bool :=
  c == ' ' || c == '-' || c == '•'

/-- Drop the characters satisfying `p` from the front (Python `lstrip`). -/
def stripLeftBy (p : Char → Bool) (s : Str) : Str := s.dropWhile p

/-- Drop the characters satisfying `p` from the back (Python `rstrip`). -/
def stripRightBy (p : Char → Bool) (s : Str) : Str := (s.reverse.dropWhile p).reverse

/-- Drop the characters satisfying `p` from both ends (Python `strip(chars)`). -/
def stripBy (p : Char → Bool) (s : Str) : Str := stripRightBy p (stripLeftBy p s)

/-- Python `str.strip()` with no argument: strip whitespace from both ends. -/
def pyStrip (s : Str) : Str := stripBy pyIsSpace s

/-- Python `str.lower()` on the characters this program handles. -/
def pyLower (s : Str) : Str := s.map Char.toLower

/-- Python `big.startswith(pat)`: `leadsWith pat big` is true when `pat` leads `big`. -/
def leadsWith : Str → Str → Bool
  | [], _ => true
  | _ :: _, [] => false
  | p :: ps, s :: ss => p == s && leadsWith ps ss

/-- Python `pat in big`: `occursIn pat big` is true when `pat` occurs contiguously in `big`. -/
def occursIn (pat : Str) : Str → Bool
  | [] => leadsWith pat []
  | s :: ss => leadsWith pat (s :: ss) || occursIn pat ss

/-- Python `s.split(c, 1)` when `c` occurs in `s`: the parts before and after
the first occurrence of `c`; `none` when `c` does not occur. -/
def splitAtFirst (c : Char) : Str → Option (Str × Str)
  | [] => none
  | x :: xs =>
      if x == c then some ([], xs)
      else match splitAtFirst c xs with
        | none => none
        | some (a, b) => some (x :: a, b)

/-- Python `s.split(c)`: split at every occurrence of `c`, keeping empty parts. -/
def splitAll (c : Char) : Str → List Str
  | [] => [[]]
  | x :: xs =>
      match splitAll c xs with
      | [] => [[x]]
      | h :: t => if x == c then [] :: h :: t else (x :: h) :: t

/-- Python `sep.join(parts)` for a one-character separator. -/
def joinSep (c : Char) : List Str → Str
  | [] => []
  | [x] => x
  | x :: y :: xs => x ++ c :: joinSep c (y :: xs)

/-! ### The canned replies (lines 62, 64-67, 71, 75, 77-80 of `src/main.py`) -/

/-- Greeting reply template (line 62). -/
def greetingReply : Str :=
  "Hello! I'm Vionix, your all‑in‑one AI assistant. How can I help today?".data

/-- Help reply template (lines 64-67). -/
def helpReply : Str :=
  ("I can organize tasks, summarize text, draft emails, brainstorm ideas, " ++
    "and answer quick questions. Tell me what you need.").data

/-- Generic fallback reply (lines 77-80). -/
def fallbackReply : Str :=
  ("Got it. I’m processing your request. In this demo, I’m running in local smart mode " ++
    "without external LLMs, so responses are templated. Tell me if you want a summary, todo, or general help.").data

/-- Template that leads the summary reply (line 71). -/
def summaryHead : Str := "Here’s a concise summary: ".data

/-! ### The rule engine (lines 60-80 of `src/main.py`) -/

/-- `text = req.message.strip().lower()` (line 60). -/
def ruleText (msg : Str) : Str := pyLower (pyStrip msg)

/-- `any(k in text for k in ["hello", "hi", "hey"])` (line 61). -/
def greetRule (msg : Str) : Bool :=
  occursIn "hello".data (ruleText msg) || occursIn "hi".data (ruleText msg) ||
    occursIn "hey".data (ruleText msg)

/-- `"help" in text or "what can you do" in text` (line 63). -/
def helpRule (msg : Str) : Bool :=
  occursIn "help".data (ruleText msg) || occursIn "what can you do".data (ruleText msg)

/-- `text.startswith("summarize:") or text.startswith("summarise:")` (line 68). -/
def summarizeRule (msg : Str) : Bool :=
  leadsWith "summarize:".data (ruleText msg) || leadsWith "summarise:".data (ruleText msg)

/-- `text.startswith("todo:") or text.startswith("task:")` (line 72). -/
def todoRule (msg : Str) : Bool :=
  leadsWith "todo:".data (ruleText msg) || leadsWith "task:".data (ruleText msg)

/-- `req.message.split(":", 1)[1].strip() if ":" in req.message else req.message`
(line 69); note it splits the original message, not the lowered `text`. -/
def summaryBody (msg : Str) : Str :=
  match splitAtFirst ':' msg with
  | some (_, rest) => pyStrip rest
  | none => msg

/-- Reply of the summarize branch (lines 69-71): the body truncated to 200
characters, an ellipsis appended exactly when the body is longer than 200. -/
def summaryReplyOf (msg : Str) : Str :=
  summaryHead ++ (summaryBody msg).take 200 ++
    (if 200 < (summaryBody msg).length then "…".data else [])

/-- Reply of the todo branch (lines 73-75): the nonblank lines of the original
message, each stripped of `" -•"`, joined as a bullet list. -/
def todoReplyOf (msg : Str) : Str :=
  let items := ((splitAll '\n' msg).filter (fun i => !(pyStrip i).isEmpty)).map
    (stripBy todoStripSet)
  "Added to your list:\n".data ++ joinSep '\n' (items.map (fun i => "• ".data ++ i))

/-- The rule engine of `chat` (lines 60-80): first matching rule wins, in the
order greeting, help, summarize, todo, generic fallback. -/
def generateReply (msg : Str) : Str :=
  if greetRule msg then greetingReply
  else if helpRule msg then helpReply
  else if summarizeRule msg then summaryReplyOf msg
  else if todoRule msg then todoReplyOf msg
  else fallbackReply

/-! ### Data model and handlers -/

/-- Body of `POST /api/chat` (class `ChatRequest`, lines 32-34): an optional
session id and the user's message. -/
structure ChatRequest where
  session_id : Option Str
  message : Str
deriving DecidableEq

/-- Response of `POST /api/chat` (class `ChatResponse`, lines 37-39). -/
structure ChatResponse where
  session_id : Str
  reply : Str
deriving DecidableEq

/-- A persisted message record (`schemas.Message` as used by `main.py` and
described by the spec's data model: session id, role, content). -/
structure MessageRec where
  session_id : Str
  role : Str
  content : Str
deriving DecidableEq

/-- An HTTP error response (`HTTPException`): status code and detail. -/
structure HTTPError where
  status : Nat
  detail : Str
deriving DecidableEq

/-- Result of a successful chat call: the HTTP response together with the
documents written to the store, in program order. -/
structure ChatResult where
  response : ChatResponse
  writes : List MessageRec
deriving DecidableEq

/-- `req.session_id or str(uuid.uuid4())` (line 53): Python `or` takes the
right operand when the left is `None` or the empty string; the fresh
`uuid.uuid4()` value is passed in as `fresh`. -/
def chosenSessionId (req : ChatRequest) (fresh : Str) : Str :=
  match req.session_id with
  | none => fresh
  | some s => if s.isEmpty then fresh else s

/-- The `POST /api/chat` handler (lines 42-86).  `db` is the database handle
(`none` models `db is None`); `fresh` is the value `str(uuid.uuid4())` would
produce on this call.  Returns the response and the store writes in program
order: the user message first (line 57), then the assistant reply (line 84). -/
def chat (db : Option Unit) (req : ChatRequest) (fresh : Str) :
    Except HTTPError ChatResult :=
  match db with
  | none => .error ⟨500, "Database not available".data⟩
  | some _ =>
      let sid := chosenSessionId req fresh
      let reply := generateReply req.message
      .ok ⟨⟨sid, reply⟩,
        [⟨sid, "user".data, req.message⟩, ⟨sid, "assistant".data, reply⟩]⟩

/-- The session id carried by the response of a chat call, when it succeeded. -/
def chatSessionId (db : Option Unit) (req : ChatRequest) (fresh : Str) : Option Str :=
  (chat db req fresh).toOption.map (fun r => r.response.session_id)

/-- A raw document as returned by the store in `get_messages`: each of the
three fields may be missing (`d.get(key, default)` on lines 104). -/
structure RawDoc where
  session_id : Option Str
  role : Option Str
  content : Option Str
deriving DecidableEq

/-- Modelled from the spec: the `schemas` module is not under `src/`, so the
validation performed by the `Message` model constructor is taken from the
spec's data model, `role: enum{user, assistant}` — construction succeeds
exactly when the role is `"user"` or `"assistant"`, and `session_id` and
`content` are arbitrary strings. -/
def mkMessage (sid role content : Str) : Option MessageRec :=
  if role = "user".data ∨ role = "assistant".data then some ⟨sid, role, content⟩
  else none

/-- Conversion of one raw document (lines 103-106): missing fields default to
the queried session id, role `"user"`, and empty content; the record is
dropped (`except ... continue`) exactly when `Message` construction fails. -/
def convertDoc (qsid : Str) (d : RawDoc) : Option MessageRec :=
  mkMessage (d.session_id.getD qsid) (d.role.getD "user".data) (d.content.getD [])

/-- Response of `GET /api/messages` (class `MessagesResponse`, lines 89-91). -/
structure MessagesResponse where
  session_id : Str
  messages : List MessageRec
deriving DecidableEq

/-- The `GET /api/messages` handler body (lines 94-108).  `docs` is the list
of raw documents the store returns for the query (the store and its `limit`
handling are external); malformed documents are skipped, the rest kept. -/
def get_messages (db : Option Unit) (sid : Str) (limit : Int)
    (docs : List RawDoc) : Except HTTPError MessagesResponse :=
  match db with
  | none => .error ⟨500, "Database not available".data⟩
  | some _ => .ok ⟨sid, docs.filterMap (convertDoc sid)⟩

/-- The declared validation of the `limit` query parameter,
`Query(50, ge=1, le=200)` (line 95). -/
def validLimit (n : Int) : Bool := 1 ≤ n && n ≤ 200

/-- The fixed 422 response produced when query-parameter validation fails. -/
def limitValidationError : HTTPError :=
  ⟨422, "Input should be between 1 and 200".data⟩

/-- The full `GET /api/messages` endpoint: the framework validates the
declared bounds of `limit` (line 95) before the handler body runs, and an
omitted `limit` takes the declared default 50. -/
def getMessagesEndpoint (db : Option Unit) (sid : Str) (limitParam : Option Int)
    (docs : List RawDoc) : Except HTTPError MessagesResponse :=
  let limit := limitParam.getD 50
  if validLimit limit then get_messages db sid limit docs
  else .error limitValidationError

/-! ## Helper lemmas about the embedded string operations -/

/-- Characterisation of `leadsWith`: `pat` leads `l` iff `l` extends `pat`. -/
theorem leadsWith_iff (pat l : Str) : leadsWith pat l = true ↔ ∃ b, l = pat ++ b := by
  induction pat generalizing l with
  | nil => simp [leadsWith]
  | cons p ps ih =>
      cases l with
      | nil => simp [leadsWith]
      | cons s ss =>
          simp only [leadsWith, Bool.and_eq_true, beq_iff_eq, ih, List.cons_append,
            List.cons.injEq]
          constructor
          · rintro ⟨rfl, b, rfl⟩
            exact ⟨b, rfl, rfl⟩
          · rintro ⟨b, rfl, rfl⟩
            exact ⟨rfl, b, rfl⟩

/-- Every string is led by itself, whatever follows. -/
theorem leadsWith_self_append (u v : Str) : leadsWith u (u ++ v) = true :=
  (leadsWith_iff u (u ++ v)).2 ⟨v, rfl⟩

/-- Characterisation of `occursIn`: `pat` occurs in `l` iff `l` splits around it. -/
theorem occursIn_iff (pat l : Str) :
    occursIn pat l = true ↔ ∃ a b, l = a ++ (pat ++ b) := by
  induction l with
  | nil =>
      simp only [occursIn, leadsWith_iff]
      constructor
      · rintro ⟨b, h⟩
        exact ⟨[], b, by simpa using h⟩
      · rintro ⟨a, b, h⟩
        obtain ⟨ha, hb⟩ := List.append_eq_nil.mp h.symm
        obtain ⟨hp, hb'⟩ := List.append_eq_nil.mp hb
        exact ⟨[], by simp [hp]⟩
  | cons x xs ih =>
      simp only [occursIn, Bool.or_eq_true, leadsWith_iff, ih]
      constructor
      · rintro (⟨b, h⟩ | ⟨a, b, h⟩)
        · exact ⟨[], b, by simpa using h⟩
        · exact ⟨x :: a, b, by simp [h]⟩
      · rintro ⟨a, b, h⟩
        cases a with
        | nil => exact Or.inl ⟨b, by simpa using h⟩
        | cons y a' =>
            simp only [List.cons_append, List.cons.injEq] at h
            exact Or.inr ⟨a', b, h.2⟩

/-- `dropWhile` never crosses a character on which the test fails. -/
theorem dropWhile_append_cons (p : Char → Bool) (a : Str) (c : Char) (b : Str)
    (hc : p c = false) :
    (a ++ c :: b).dropWhile p = a.dropWhile p ++ c :: b := by
  induction a with
  | nil => simp [List.dropWhile_cons, hc]
  | cons x xs ih =>
      cases hx : p x <;> simp [List.dropWhile_cons, hx, ih]

/-- Stripping from the left does nothing when the head already fails the test. -/
theorem stripLeftBy_cons_false (p : Char → Bool) (x : Char) (xs : Str)
    (hx : p x = false) : stripLeftBy p (x :: xs) = x :: xs := by
  simp [stripLeftBy, List.dropWhile_cons, hx]

/-- Stripping from the right never crosses a character failing the test. -/
theorem stripRightBy_append_cons (p : Char → Bool) (a : Str) (c : Char) (b : Str)
    (hc : p c = false) :
    stripRightBy p (a ++ c :: b) = a ++ c :: stripRightBy p b := by
  unfold stripRightBy
  rw [show a ++ c :: b = a ++ (c :: b) from rfl, List.reverse_append,
    List.reverse_cons, List.append_assoc, List.singleton_append,
    dropWhile_append_cons p _ c _ hc, List.reverse_append, List.reverse_cons,
    List.reverse_reverse, List.append_assoc, List.singleton_append]

/-- `Char.toLower` fixes every whitespace character. -/
theorem toLower_fix_of_space (c : Char) (h : pyIsSpace c = true) :
    Char.toLower c = c := by
  have hn : ¬ (c.val.toNat ≥ 65 ∧ c.val.toNat ≤ 90) := by
    simp only [pyIsSpace, Char.toNat, Bool.or_eq_true, beq_iff_eq] at h
    omega
  simp only [Char.toLower, Char.toNat]
  rw [if_neg hn]

/-- `splitAtFirst` finds the first occurrence of the separator. -/
theorem splitAtFirst_append (c : Char) (a b : Str)
    (h : ∀ x ∈ a, (x == c) = false) :
    splitAtFirst c (a ++ c :: b) = some (a, b) := by
  induction a with
  | nil => simp [splitAtFirst]
  | cons y ys ih =>
      have hy : (y == c) = false := h y (List.mem_cons_self y ys)
      simp [splitAtFirst, hy, ih (fun x hx => h x (List.mem_cons_of_mem y hx))]

/-- Stripping preserves an occurrence whose characters all fail the test. -/
theorem stripBy_decompose (p : Char → Bool) (a k b : Str) (hk : k ≠ [])
    (hsp : ∀ x ∈ k, p x = false) :
    ∃ a' b', stripBy p (a ++ (k ++ b)) = a' ++ (k ++ b') := by
  obtain ⟨c, k', rfl⟩ : ∃ c k', k = c :: k' := by
    cases k with
    | nil => exact absurd rfl hk
    | cons c k' => exact ⟨c, k', rfl⟩
  have hc : p c = false := hsp c (List.mem_cons_self c k')
  have hleft : stripLeftBy p (a ++ (c :: k' ++ b)) =
      a.dropWhile p ++ (c :: k' ++ b) := by
    rw [show a ++ (c :: k' ++ b) = a ++ c :: (k' ++ b) by simp]
    rw [stripLeftBy, dropWhile_append_cons p a c (k' ++ b) hc]
    simp
  rcases List.eq_nil_or_concat (c :: k') with hnil | ⟨init, d, hcat⟩
  · exact absurd hnil (by simp)
  · have hd : p d = false := by
      refine hsp d ?_
      rw [hcat, List.concat_eq_append]
      exact List.mem_append_right init (List.mem_cons_self d [])
    refine ⟨a.dropWhile p, stripRightBy p b, ?_⟩
    rw [stripBy, hleft, hcat, List.concat_eq_append]
    rw [show a.dropWhile p ++ ((init ++ [d]) ++ b) =
      (a.dropWhile p ++ init) ++ d :: b by simp]
    rw [stripRightBy_append_cons p _ d b hd]
    simp

/-- An occurrence of a nonempty whitespace-free pattern in the lowered message
is still an occurrence in the rule text (the stripped, lowered message). -/
theorem occursIn_ruleText_of_occursIn_lower (kw m : Str) (hne : kw ≠ [])
    (hsp : ∀ x ∈ kw, pyIsSpace x = false)
    (h : occursIn kw (pyLower m) = true) :
    occursIn kw (ruleText m) = true := by
  obtain ⟨a, b, hab⟩ := (occursIn_iff kw (pyLower m)).1 h
  obtain ⟨a0, rest0, rfl, ha0, hrest0⟩ := List.map_eq_append_iff.1 hab
  obtain ⟨k0, b0, rfl, hk0, hb0⟩ := List.map_eq_append_iff.1 hrest0
  have hk0ne : k0 ≠ [] := by
    intro hnil
    rw [hnil] at hk0
    exact hne (by simpa using hk0.symm)
  have hsp0 : ∀ x ∈ k0, pyIsSpace x = false := by
    intro x hx
    cases hq : pyIsSpace x with
    | false => rfl
    | true =>
        have hmem : Char.toLower x ∈ kw := by
          rw [← hk0]
          exact List.mem_map_of_mem Char.toLower hx
        rw [toLower_fix_of_space x hq] at hmem
        exact absurd (hsp x hmem) (by simp [hq])
  obtain ⟨a', b', hstrip⟩ := stripBy_decompose pyIsSpace a0 k0 b0 hk0ne hsp0
  refine (occursIn_iff kw (ruleText (a0 ++ (k0 ++ b0)))).2
    ⟨pyLower a', pyLower b', ?_⟩
  rw [ruleText, pyStrip, hstrip]
  simp [pyLower, hk0]

/-! ## Claims -/

/-- C3: for the chat message consisting of the line `todo:` followed by the
lines `- a` and `- b`, the reply lists both items `a` and `b` as bullets in
their original order: the reply is computed in full, and the two bullets
occur in it contiguously and in order. -/
theorem C3_todo_bullets :
    generateReply "todo:\n- a\n- b".data =
      "Added to your list:\n• todo:\n• a\n• b".data ∧
    occursIn "• a\n• b".data (generateReply "todo:\n- a\n- b".data) = true := by
  decide

/-- C5: when the database handle is unavailable (`db is None`), both
`POST /api/chat` and `GET /api/messages` fail with HTTP status 500 and the
fixed detail `Database not available`, and return no other result. -/
theorem C5_db_unavailable (req : ChatRequest) (fresh sid : Str) (limit : Int)
    (docs : List RawDoc) :
    chat none req fresh = .error ⟨500, "Database not available".data⟩ ∧
    get_messages none sid limit docs =
      .error ⟨500, "Database not available".data⟩ :=
  ⟨rfl, rfl⟩

/-- C6: a `limit` outside `[1, 200]` is rejected by input validation before
the handler body runs, whatever the database state, and an omitted `limit`
behaves exactly like the declared default 50. -/
theorem C6_limit_validation (db : Option Unit) (sid : Str) (docs : List RawDoc)
    (n : Int) (h : n < 1 ∨ 200 < n) :
    getMessagesEndpoint db sid (some n) docs = .error limitValidationError ∧
    getMessagesEndpoint db sid none docs =
      getMessagesEndpoint db sid (some 50) docs := by
  constructor
  · have hv : validLimit n = false := by
      unfold validLimit
      simp only [Bool.and_eq_false_iff, decide_eq_false_iff_not, not_le]
      omega
    simp [getMessagesEndpoint, hv]
  · rfl

/-- Witness for C6 at the boundary inputs 0 and 201. -/
theorem C6_limit_validation_witness :
    getMessagesEndpoint (some ()) [] (some 0) [] = .error limitValidationError ∧
    getMessagesEndpoint (some ()) [] (some 201) [] = .error limitValidationError :=
  ⟨(C6_limit_validation (some ()) [] [] 0 (Or.inl (by decide))).1,
   (C6_limit_validation (some ()) [] [] 201 (Or.inr (by decide))).1⟩

/-- C7: a chat request that omits `session_id` gets the freshly generated
identifier as the response's session id, so two sequential calls that both
omit it — whose fresh identifiers are distinct — yield distinct session ids. -/
theorem C7_fresh_session_id (r1 r2 : ChatRequest) (f1 f2 : Str)
    (h1 : r1.session_id = none) (h2 : r2.session_id = none) (hne : f1 ≠ f2) :
    chatSessionId (some ()) r1 f1 = some f1 ∧
    chatSessionId (some ()) r2 f2 = some f2 ∧
    chatSessionId (some ()) r1 f1 ≠ chatSessionId (some ()) r2 f2 := by
  refine ⟨?_, ?_, ?_⟩ <;>
    simp [chatSessionId, chat, chosenSessionId, h1, h2, Except.toOption, hne]

/-- Witness for C7 at two concrete requests with distinct fresh identifiers. -/
theorem C7_fresh_session_id_witness :
    chatSessionId (some ()) ⟨none, "x".data⟩ "a".data = some "a".data ∧
    chatSessionId (some ()) ⟨none, "y".data⟩ "b".data = some "b".data ∧
    chatSessionId (some ()) ⟨none, "x".data⟩ "a".data ≠
      chatSessionId (some ()) ⟨none, "y".data⟩ "b".data :=
  C7_fresh_session_id ⟨none, "x".data⟩ ⟨none, "y".data⟩ "a".data "b".data rfl rfl
    (by decide)

/-- C8: every successful chat call persists exactly two records, in program
order: first a `user` record whose content is the request message verbatim,
then an `assistant` record whose content is the returned reply, both under
the response's session id. -/
theorem C8_two_writes (req : ChatRequest) (fresh : Str) :
    ∃ res : ChatResult, chat (some ()) req fresh = .ok res ∧
      res.writes = [⟨res.response.session_id, "user".data, req.message⟩,
        ⟨res.response.session_id, "assistant".data, res.response.reply⟩] ∧
      res.response.reply = generateReply req.message :=
  ⟨⟨⟨chosenSessionId req fresh, generateReply req.message⟩,
    [⟨chosenSessionId req fresh, "user".data, req.message⟩,
     ⟨chosenSessionId req fresh, "assistant".data, generateReply req.message⟩]⟩,
   rfl, rfl, rfl⟩

/-- C9: a `session_id` supplied as the empty string behaves as if omitted:
the fresh identifier is returned instead of the supplied empty string. -/
theorem C9_empty_session_id (req : ChatRequest) (fresh : Str)
    (h : req.session_id = some []) :
    chatSessionId (some ()) req fresh = some fresh := by
  simp [chatSessionId, chat, chosenSessionId, h, Except.toOption]

/-- Witness for C9 at a concrete request carrying an empty session id. -/
theorem C9_empty_session_id_witness :
    chatSessionId (some ()) ⟨some [], "x".data⟩ "f".data = some "f".data :=
  C9_empty_session_id ⟨some [], "x".data⟩ "f".data rfl

/-- C10: a stored record merely lacking `session_id`, `role` or `content` is
not dropped — the missing field defaults to the queried session id, role
`user`, or empty content; a record is skipped exactly when constructing the
`Message` model from the defaulted values fails; and the remaining records
are returned. -/
theorem C10_defaults_and_skip (qsid s r c : Str) (d : RawDoc) (u : Unit)
    (limit : Int) (docs : List RawDoc)
    (hr : r = "user".data ∨ r = "assistant".data) :
    convertDoc qsid ⟨none, some r, some c⟩ = some ⟨qsid, r, c⟩ ∧
    convertDoc qsid ⟨some s, none, some c⟩ = some ⟨s, "user".data, c⟩ ∧
    convertDoc qsid ⟨some s, some r, none⟩ = some ⟨s, r, []⟩ ∧
    (convertDoc qsid d = none ↔
      mkMessage (d.session_id.getD qsid) (d.role.getD "user".data)
        (d.content.getD []) = none) ∧
    get_messages (some u) qsid limit docs =
      .ok ⟨qsid, docs.filterMap (convertDoc qsid)⟩ := by
  have h1 : convertDoc qsid ⟨none, some r, some c⟩ = some ⟨qsid, r, c⟩ := by
    rcases hr with hr | hr <;> simp [convertDoc, mkMessage, hr]
  have h3 : convertDoc qsid ⟨some s, some r, none⟩ = some ⟨s, r, []⟩ := by
    rcases hr with hr | hr <;> simp [convertDoc, mkMessage, hr]
  exact ⟨h1, by simp [convertDoc, mkMessage], h3, Iff.rfl, rfl⟩

/-- Witness for C10 at concrete records, one lacking its session id and one
lacking its role. -/
theorem C10_defaults_and_skip_witness :
    convertDoc "s".data ⟨none, some "assistant".data, some "c".data⟩ =
      some ⟨"s".data, "assistant".data, "c".data⟩ ∧
    convertDoc "s".data ⟨some "t".data, none, some "c".data⟩ =
      some ⟨"t".data, "user".data, "c".data⟩ :=
  ⟨(C10_defaults_and_skip "s".data "t".data "assistant".data "c".data
      ⟨none, none, none⟩ () 50 [] (Or.inr rfl)).1,
   (C10_defaults_and_skip "s".data "t".data "assistant".data "c".data
      ⟨none, none, none⟩ () 50 [] (Or.inr rfl)).2.1⟩

/-- C2: the chat reply rule engine is total and ordered: every message yields
some reply, and the reply is exactly that of the first matching rule in the
fixed order greeting, help, summarize, todo, generic fallback. -/
theorem C2_rule_order (m : Str) :
    (∃ r : Str, generateReply m = r) ∧
    (greetRule m = true → generateReply m = greetingReply) ∧
    (greetRule m = false → helpRule m = true → generateReply m = helpReply) ∧
    (greetRule m = false → helpRule m = false → summarizeRule m = true →
      generateReply m = summaryReplyOf m) ∧
    (greetRule m = false → helpRule m = false → summarizeRule m = false →
      todoRule m = true → generateReply m = todoReplyOf m) ∧
    (greetRule m = false → helpRule m = false → summarizeRule m = false →
      todoRule m = false → generateReply m = fallbackReply) := by
  refine ⟨⟨_, rfl⟩, ?_, ?_, ?_, ?_, ?_⟩ <;> intros <;> simp [generateReply, *]

/-- Witness for C2 at concrete messages reaching the help rule and the
fallback rule. -/
theorem C2_rule_order_witness :
    generateReply "zzz".data = fallbackReply ∧
    generateReply "help".data = helpReply :=
  ⟨(C2_rule_order "zzz".data).2.2.2.2.2 (by decide) (by decide) (by decide)
      (by decide),
   (C2_rule_order "help".data).2.2.1 (by decide) (by decide)⟩

/-- C4: every chat message that contains `hello`, `hi` or `hey` as a
case-insensitive substring gets a reply that starts with the greeting
template. -/
theorem C4_greeting_keywords (m kw : Str)
    (hkw : kw = "hello".data ∨ kw = "hi".data ∨ kw = "hey".data)
    (h : occursIn kw (pyLower m) = true) :
    leadsWith greetingReply (generateReply m) = true := by
  have hg : greetRule m = true := by
    rcases hkw with rfl | rfl | rfl
    · have hocc := occursIn_ruleText_of_occursIn_lower "hello".data m (by decide)
        (by decide) h
      simp [greetRule, hocc]
    · have hocc := occursIn_ruleText_of_occursIn_lower "hi".data m (by decide)
        (by decide) h
      simp [greetRule, hocc]
    · have hocc := occursIn_ruleText_of_occursIn_lower "hey".data m (by decide)
        (by decide) h
      simp [greetRule, hocc]
  have hrep : generateReply m = greetingReply := by simp [generateReply, hg]
  rw [hrep]
  simpa using leadsWith_self_append greetingReply []

/-- Witness for C4 at the concrete message `Hi there`. -/
theorem C4_greeting_keywords_witness :
    leadsWith greetingReply (generateReply "Hi there".data) = true :=
  C4_greeting_keywords "Hi there".data "hi".data (Or.inr (Or.inl rfl)) (by decide)

/-- Shape of the rule text and the summary body for a message that begins
with a summarize keyword: the keyword survives stripping and lowering, and
the body is the remainder after the first colon, stripped of whitespace. -/
theorem summarize_shape (stem t : Str) (c0 : Char) (stem' : Str)
    (hcons : stem = c0 :: stem')
    (hc0 : pyIsSpace c0 = false)
    (hcolon : ∀ x ∈ stem, (x == ':') = false)
    (hlower : pyLower stem = stem) :
    ruleText (stem ++ ':' :: t) =
      (stem ++ [':']) ++ pyLower (stripRightBy pyIsSpace t) ∧
    summaryBody (stem ++ ':' :: t) = pyStrip t := by
  constructor
  · have hstrip : pyStrip (stem ++ ':' :: t) =
        stem ++ ':' :: stripRightBy pyIsSpace t := by
      rw [pyStrip, stripBy]
      rw [hcons, show (c0 :: stem') ++ ':' :: t = c0 :: (stem' ++ ':' :: t) by simp]
      rw [stripLeftBy_cons_false _ _ _ hc0]
      rw [show c0 :: (stem' ++ ':' :: t) = (c0 :: stem') ++ ':' :: t by simp]
      exact stripRightBy_append_cons _ _ _ _ (by decide)
    rw [ruleText, hstrip]
    have hlow : List.map Char.toLower stem = stem := hlower
    simp [pyLower, List.map_append, List.map_cons, hlow,
      show Char.toLower ':' = ':' by decide, List.append_assoc]
  · unfold summaryBody
    rw [splitAtFirst_append ':' stem t hcolon]

/-- The summarize rule fires for every message made of a summarize keyword
followed by a remainder, and the summary body is the stripped remainder. -/
theorem summarizeRule_of_keyword (pre t : Str)
    (hpre : pre = "summarize:".data ∨ pre = "summarise:".data) :
    summarizeRule (pre ++ t) = true ∧ summaryBody (pre ++ t) = pyStrip t := by
  rcases hpre with rfl | rfl
  · have h := summarize_shape "summarize".data t 's' "ummarize".data rfl
      (by decide) (by decide) (by decide)
    have e : "summarize:".data ++ t = "summarize".data ++ ':' :: t := rfl
    rw [e]
    refine ⟨?_, h.2⟩
    unfold summarizeRule
    rw [h.1]
    have hl : leadsWith "summarize:".data
        (("summarize".data ++ [':']) ++ pyLower (stripRightBy pyIsSpace t)) = true := by
      rw [show "summarize:".data = "summarize".data ++ [':'] from rfl]
      exact leadsWith_self_append _ _
    rw [Bool.or_eq_true]
    exact Or.inl hl
  · have h := summarize_shape "summarise".data t 's' "ummarise".data rfl
      (by decide) (by decide) (by decide)
    have e : "summarise:".data ++ t = "summarise".data ++ ':' :: t := rfl
    rw [e]
    refine ⟨?_, h.2⟩
    unfold summarizeRule
    rw [h.1]
    have hl : leadsWith "summarise:".data
        (("summarise".data ++ [':']) ++ pyLower (stripRightBy pyIsSpace t)) = true := by
      rw [show "summarise:".data = "summarise".data ++ [':'] from rfl]
      exact leadsWith_self_append _ _
    rw [Bool.or_eq_true]
    exact Or.inr hl

set_option maxRecDepth 40000 in
/-- C1 is false as stated: for the message `summarize:` followed by the
201-character text `hi` + 199 `x`s, the text contains the greeting keyword
`hi`, the greeting rule is checked before the summarize rule, so the reply is
the greeting template and does not contain the first 200 characters of the
text followed by an ellipsis. -/
theorem C1_counterexample :
    200 < ('h' :: 'i' :: List.replicate 199 'x').length ∧
    generateReply ("summarize:".data ++ 'h' :: 'i' :: List.replicate 199 'x') =
      greetingReply ∧
    occursIn (('h' :: 'i' :: List.replicate 199 'x').take 200 ++ "…".data)
      (generateReply ("summarize:".data ++ 'h' :: 'i' :: List.replicate 199 'x')) =
      false := by
  decide

/-- C1 (amended): for a chat message that is `summarize:` (or `summarise:`)
followed by text, provided the message triggers neither the greeting rule nor
the help rule (both are checked first), the reply is the summary template
followed by the whitespace-stripped text: truncated to its first 200
characters plus an ellipsis when the stripped text is longer than 200
characters, and untruncated with no ellipsis appended otherwise. -/
theorem C1_summarize_amended (pre t : Str)
    (hpre : pre = "summarize:".data ∨ pre = "summarise:".data)
    (hg : greetRule (pre ++ t) = false)
    (hh : helpRule (pre ++ t) = false) :
    (200 < (pyStrip t).length →
      generateReply (pre ++ t) =
        summaryHead ++ (pyStrip t).take 200 ++ "…".data) ∧
    ((pyStrip t).length ≤ 200 →
      generateReply (pre ++ t) = summaryHead ++ pyStrip t) := by
  obtain ⟨hs, hb⟩ := summarizeRule_of_keyword pre t hpre
  have hrep : generateReply (pre ++ t) = summaryReplyOf (pre ++ t) := by
    simp [generateReply, hg, hh, hs]
  constructor
  · intro hlen
    rw [hrep]
    unfold summaryReplyOf
    rw [hb, if_pos hlen]
  · intro hlen
    rw [hrep]
    unfold summaryReplyOf
    rw [hb, if_neg (by omega), List.append_nil, List.take_of_length_le hlen]

set_option maxRecDepth 40000 in
/-- Witness for the amended C1: a 201-character body of `x`s is truncated to
200 characters and gets the ellipsis. -/
theorem C1_summarize_amended_witness :
    generateReply ("summarize:".data ++ List.replicate 201 'x') =
      summaryHead ++ (pyStrip (List.replicate 201 'x')).take 200 ++ "…".data :=
  (C1_summarize_amended "summarize:".data (List.replicate 201 'x') (Or.inl rfl)
    (by decide) (by decide)).1 (by decide)

end Vionix
